import Mathlib

/-!
Verification of the FAF5-Analysis repository (source/LCATools.py,
source/AnalyzeVius.py, source/IdentifyFacilitiesInRadius.py) against its
natural-language specification.

The Python code is shallowly embedded over exact rational arithmetic: a
pandas dataframe column of lifecycle emission intensities becomes a
function from the row index to a rational, a dataframe of survey records
becomes a list of records whose possibly-missing (NaN) entries are
Option-valued, and numpy operations (histogram, average, quantiles) are
translated to executable list functions.  Floating point is idealised as
exact rational arithmetic throughout.
-/

namespace FAF5

/-! ### LCATools.py: lifecycle tables

A GREET lifecycle dataframe has one row per pollutant and one numeric
column per lifecycle stage: well-to-pump (WTP), pump-to-wheel (PTW) and
well-to-wheel (WTW).  Non-numeric columns (the pollutant label column
Item) play no part in the arithmetic and are not modelled. -/

inductive Stage where
  | WTP
  | PTW
  | WTW
deriving DecidableEq

/-- A lifecycle dataframe: one rational per stage column and pollutant row. -/
def LcaTable : Type := Stage → ℕ → ℚ

/-- The dataframe whose stage columns are identically zero; this is the
value of the accumulator dataframe after the zeroing loop at the start of
calculate_df_lca_weighted_average, and the getD default for class lists. -/
def zeroTable : LcaTable := fun _ _ => 0

/-- Embedding of LCATools.calculate_df_lca_weighted_average (lines 100-163).
The accumulator starts from the zeroed copy of the first dataframe and, for
each stage column and each GREET class index, adds the term selected by the
normalize_by_payload / use_vius_mpg flags, exactly as the four branches of
the source loop do. -/
def calculate_df_lca_weighted_average
    (df_lcas_greet_mpg df_lcas_1mpg : List LcaTable) (weights : List ℚ)
    (normalize_by_payload : Bool) (payloads : List ℚ)
    (use_vius_mpg : Bool) (mpgs : List ℚ) : LcaTable :=
  fun column row =>
    (List.range df_lcas_greet_mpg.length).foldl
      (fun acc i_class =>
        acc +
          (if normalize_by_payload && !use_vius_mpg then
            (df_lcas_greet_mpg.getD i_class zeroTable) column row
              * weights.getD i_class 0 / payloads.getD i_class 0
          else if use_vius_mpg && !normalize_by_payload then
            (df_lcas_1mpg.getD i_class zeroTable) column row
              * weights.getD i_class 0 / mpgs.getD i_class 0
          else if use_vius_mpg && normalize_by_payload then
            (df_lcas_1mpg.getD i_class zeroTable) column row
              * weights.getD i_class 0
              / (payloads.getD i_class 0 * mpgs.getD i_class 0)
          else
            (df_lcas_greet_mpg.getD i_class zeroTable) column row
              * weights.getD i_class 0))
      0

/-- Per-class emission intensity as the specification describes it: the
1-mpg intensity divided by the class mpg when use_vius_mpg is set,
otherwise the GREET-mpg intensity; divided by the class payload when
normalize_by_payload is set. -/
def specClassIntensity (use_vius_mpg normalize_by_payload : Bool)
    (greet one_mpg mpg payload : ℚ) : ℚ :=
  let base := if use_vius_mpg then one_mpg / mpg else greet
  if normalize_by_payload then base / payload else base

/-- Weighted sum of values with the given weights. -/
def ratWeightedSum (ws xs : List ℚ) : ℚ :=
  (List.zipWith (fun w x => w * x) ws xs).sum

/-- Weighted average of values with the given weights: the weighted sum
divided by the total weight. -/
def ratWeightedAverage (ws xs : List ℚ) : ℚ :=
  ratWeightedSum ws xs / ws.sum

/-- The per-class intensities entering the class average for the given
flags, as a list over class indices. -/
def classIntensities (df_lcas_greet_mpg df_lcas_1mpg : List LcaTable)
    (normalize_by_payload : Bool) (payloads : List ℚ)
    (use_vius_mpg : Bool) (mpgs : List ℚ) (column : Stage) (row : ℕ) : List ℚ :=
  (List.range df_lcas_greet_mpg.length).map fun i =>
    specClassIntensity use_vius_mpg normalize_by_payload
      ((df_lcas_greet_mpg.getD i zeroTable) column row)
      ((df_lcas_1mpg.getD i zeroTable) column row)
      (mpgs.getD i 0) (payloads.getD i 0)

/-- A lifecycle dataframe whose stage columns are identically one. -/
def oneTable : LcaTable := fun _ _ => 1

lemma foldl_add_eq_sum_map (l : List ℕ) (f : ℕ → ℚ) (c : ℚ) :
    l.foldl (fun acc i => acc + f i) c = c + (l.map f).sum := by
  induction l generalizing c with
  | nil => simp
  | cons x xs ih => simp [ih, add_assoc]

lemma zipWith_mul_map_range (w : List ℚ) (f : ℕ → ℚ) (n : ℕ) (h : w.length = n) :
    List.zipWith (fun a b => a * b) w ((List.range n).map f)
      = (List.range n).map fun i => w.getD i 0 * f i := by
  apply List.ext_getElem
  · simp [h]
  · intro i h1 h2
    have hi : i < n := by simpa using h2
    have hwi : i < w.length := by omega
    simp [List.getElem_zipWith, List.getElem_map, List.getElem_range,
      List.getD_eq_getElem w 0 hwi, List.getElem?_eq_getElem hwi]

/-- C1 (amended): each lifecycle-stage entry computed by
calculate_df_lca_weighted_average equals the weighted SUM, with the given
weights, of the per-class emission intensities (the GREET-mpg intensity,
or the 1-mpg intensity divided by the class mpg when use_vius_mpg is set,
divided by the class payload when normalize_by_payload is set); when the
weights sum to one this weighted sum coincides with the weighted average
of those intensities. -/
theorem calculate_df_lca_weighted_average_eq_weighted_sum
    (df_lcas_greet_mpg df_lcas_1mpg : List LcaTable) (weights payloads mpgs : List ℚ)
    (normalize_by_payload use_vius_mpg : Bool)
    (hw : weights.length = df_lcas_greet_mpg.length)
    (column : Stage) (row : ℕ) :
    calculate_df_lca_weighted_average df_lcas_greet_mpg df_lcas_1mpg weights
        normalize_by_payload payloads use_vius_mpg mpgs column row
      = ratWeightedSum weights
          (classIntensities df_lcas_greet_mpg df_lcas_1mpg
            normalize_by_payload payloads use_vius_mpg mpgs column row)
    ∧ (weights.sum = 1 →
        calculate_df_lca_weighted_average df_lcas_greet_mpg df_lcas_1mpg weights
            normalize_by_payload payloads use_vius_mpg mpgs column row
          = ratWeightedAverage weights
              (classIntensities df_lcas_greet_mpg df_lcas_1mpg
                normalize_by_payload payloads use_vius_mpg mpgs column row)) := by
  have hmain :
      calculate_df_lca_weighted_average df_lcas_greet_mpg df_lcas_1mpg weights
          normalize_by_payload payloads use_vius_mpg mpgs column row
        = ratWeightedSum weights
            (classIntensities df_lcas_greet_mpg df_lcas_1mpg
              normalize_by_payload payloads use_vius_mpg mpgs column row) := by
    rw [calculate_df_lca_weighted_average, foldl_add_eq_sum_map, zero_add,
      ratWeightedSum, classIntensities,
      zipWith_mul_map_range weights _ _ hw]
    congr 1
    apply List.map_congr_left
    intro i _
    set g := (df_lcas_greet_mpg.getD i zeroTable) column row with hg
    set o := (df_lcas_1mpg.getD i zeroTable) column row with ho
    set wi := weights.getD i 0 with hwi
    set pi := payloads.getD i 0 with hpi
    set mi := mpgs.getD i 0 with hmi
    rcases normalize_by_payload <;> rcases use_vius_mpg <;>
      simp [specClassIntensity] <;> ring_nf
  refine ⟨hmain, fun hsum => ?_⟩
  rw [hmain, ratWeightedAverage, hsum, div_one]

/-- Witness for C1 at a concrete input: a single class with dataframe
constantly one and weight two, plain flags. -/
theorem calculate_df_lca_weighted_average_eq_weighted_sum_witness :
    ([(2 : ℚ)] : List ℚ).length = ([oneTable] : List LcaTable).length ∧
      calculate_df_lca_weighted_average [oneTable] [oneTable] [2]
          false [] false [] Stage.WTP 0
        = ratWeightedSum [2]
            (classIntensities [oneTable] [oneTable] false [] false [] Stage.WTP 0) :=
  ⟨rfl,
    (calculate_df_lca_weighted_average_eq_weighted_sum
      [oneTable] [oneTable] [2] [] [] false false rfl Stage.WTP 0).1⟩

/-- C1 (counterexample to the claim as stated): with the single weight two
and a dataframe constantly one, the function returns the weighted sum 2,
while the weighted average of the column with the given weights is 1. -/
theorem calculate_df_lca_weighted_average_not_weighted_average :
    calculate_df_lca_weighted_average [oneTable] [oneTable] [2]
        false [] false [] Stage.WTP 0
      ≠ ratWeightedAverage [2] [oneTable Stage.WTP 0] := by
  norm_num [calculate_df_lca_weighted_average, ratWeightedAverage,
    ratWeightedSum, oneTable, List.range_succ]

/-- Embedding of
LCATools.calculate_emission_intensity_using_mpg_times_payload
(lines 166-200).  The second component of df_mpg_times_payload is indexed
by row: entry 0 is the mean of the fuel-efficiency-times-payload
distribution and entry 1 its statistical uncertainty.  The zeroing loop of
the source is omitted because every stage column is overwritten on the
next line of the source. -/
def calculate_emission_intensity_using_mpg_times_payload
    (df_lca_1mpg : LcaTable) (df_mpg_times_payload : ℕ → ℚ) :
    LcaTable × LcaTable :=
  let df_emission_intensity : LcaTable := fun column row =>
    df_lca_1mpg column row / df_mpg_times_payload 0
  let df_emission_intensity_unc : LcaTable := fun column row =>
    df_emission_intensity column row * df_mpg_times_payload 1
      / df_mpg_times_payload 0
  (df_emission_intensity, df_emission_intensity_unc)

/-- C4: for every pollutant row and stage column, the emission intensity
returned by calculate_emission_intensity_using_mpg_times_payload is the
1-mpg emission rate divided by the distribution mean (entry 0), and the
returned uncertainty is that intensity multiplied by the ratio of the
distribution uncertainty (entry 1) to the mean (entry 0). -/
theorem calculate_emission_intensity_using_mpg_times_payload_spec
    (df_lca_1mpg : LcaTable) (df_mpg_times_payload : ℕ → ℚ)
    (column : Stage) (row : ℕ) :
    (calculate_emission_intensity_using_mpg_times_payload
        df_lca_1mpg df_mpg_times_payload).1 column row
      = df_lca_1mpg column row / df_mpg_times_payload 0
    ∧ (calculate_emission_intensity_using_mpg_times_payload
        df_lca_1mpg df_mpg_times_payload).2 column row
      = ((calculate_emission_intensity_using_mpg_times_payload
            df_lca_1mpg df_mpg_times_payload).1 column row)
          * (df_mpg_times_payload 1 / df_mpg_times_payload 0) := by
  refine ⟨rfl, ?_⟩
  rw [calculate_emission_intensity_using_mpg_times_payload]
  exact mul_div_assoc _ _ _

/-! ### LCATools.py: ship well-to-hull module -/

/-- LCATools line 13: tonnes per ton. -/
def TONNES_TO_TONS : ℚ := 110231 / 100000

/-- LCATools line 14: km per mile. -/
def KM_TO_MILES : ℚ := 621371 / 1000000

/-- Ship lifecycle dataframe: well-to-pump, pump-to-hull and well-to-hull
columns, one rational per pollutant row. -/
structure ShipLca where
  WTP : ℕ → ℚ
  PTH : ℕ → ℚ
  WTH : ℕ → ℚ

/-- Embedding of LCATools.readGreetWthShip (lines 592-648): each Trip
value of the feedstock, conversion and combustion tables is scaled from
grams per million tonne-km to grams per ton-mile, then the scaled tables
are combined as WTP = feedstock + conversion, PTH = combustion and
WTH = WTP + PTH. -/
def readGreetWthShip (feedstock conversion combustion : ℕ → ℚ) : ShipLca :=
  let feedstockTrip := fun row =>
    feedstock row * (1 / 1000000) * (1 / TONNES_TO_TONS) * (1 / KM_TO_MILES)
  let conversionTrip := fun row =>
    conversion row * (1 / 1000000) * (1 / TONNES_TO_TONS) * (1 / KM_TO_MILES)
  let combustionTrip := fun row =>
    combustion row * (1 / 1000000) * (1 / TONNES_TO_TONS) * (1 / KM_TO_MILES)
  { WTP := fun row => feedstockTrip row + conversionTrip row
    PTH := fun row => combustionTrip row
    WTH := fun row =>
      (feedstockTrip row + conversionTrip row) + combustionTrip row }

/-- C7: readGreetWthShip multiplies every feedstock, conversion and
combustion emission value by exactly (1/10^6) * (1/1.10231) * (1/0.621371)
and applies no other transformation before combining them into the WTP,
PTH and WTH columns. -/
theorem readGreetWthShip_unit_conversion
    (feedstock conversion combustion : ℕ → ℚ) (row : ℕ) :
    (readGreetWthShip feedstock conversion combustion).WTP row
      = feedstock row * ((1 / 10 ^ 6) * (1 / (110231 / 100000))
            * (1 / (621371 / 1000000)))
        + conversion row * ((1 / 10 ^ 6) * (1 / (110231 / 100000))
            * (1 / (621371 / 1000000)))
    ∧ (readGreetWthShip feedstock conversion combustion).PTH row
      = combustion row * ((1 / 10 ^ 6) * (1 / (110231 / 100000))
            * (1 / (621371 / 1000000)))
    ∧ (readGreetWthShip feedstock conversion combustion).WTH row
      = (readGreetWthShip feedstock conversion combustion).WTP row
        + (readGreetWthShip feedstock conversion combustion).PTH row := by
  refine ⟨?_, ?_, rfl⟩ <;>
    · rw [readGreetWthShip]
      simp only [TONNES_TO_TONS, KM_TO_MILES]
      ring

/-! ### IdentifyFacilitiesInRadius.py

The geometry is modelled in the projected coordinate system EPSG:3857, in
which the source constructs the circle: a facility point is represented by
its projected coordinates, the buffer polygon around the projected center
is idealised as the exact disc of the given radius in meters, and the
spatial join keeping the points intersecting the circle becomes membership
in that closed disc.  The Mercator projection applied by to_crs is
injective, so membership may be tested in projected coordinates. -/

/-- Embedding of IdentifyFacilitiesInRadius.miles_to_meters (lines 19-33). -/
def miles_to_meters (d_miles : ℚ) : ℚ := d_miles * 1600

/-- A point in projected (EPSG:3857) coordinates, in meters. -/
structure GeoPoint where
  x : ℚ
  y : ℚ
deriving DecidableEq

/-- A circle in projected coordinates: center and radius in meters. -/
structure GeoCircle where
  center : GeoPoint
  radius_meters : ℚ

/-- Embedding of IdentifyFacilitiesInRadius.make_circle (lines 36-74): the
circle around the projected center whose radius is the given number of
miles converted to meters by miles_to_meters. -/
def make_circle (center_long center_lat : ℚ) (radius : ℚ) : GeoCircle :=
  { center := { x := center_long, y := center_lat }
    radius_meters := miles_to_meters radius }

/-- A point lies in the (closed) disc bounded by the circle. -/
def point_in_circle (gpd_circle : GeoCircle) (p : GeoPoint) : Bool :=
  decide ((p.x - gpd_circle.center.x) ^ 2 + (p.y - gpd_circle.center.y) ^ 2
    ≤ gpd_circle.radius_meters ^ 2)

/-- Embedding of IdentifyFacilitiesInRadius.identify_points_in_circle
(lines 77-96): the spatial join keeps exactly the facility points lying in
the circle. -/
def identify_points_in_circle (gpd_circle : GeoCircle)
    (gpd_points : List GeoPoint) : List GeoPoint :=
  gpd_points.filter (fun p => point_in_circle gpd_circle p)

/-- C8: for every center, radius r in miles and list of facility points,
the radius query returns exactly the points of the list within the circle
around the center whose radius is the miles_to_meters conversion of r,
and that conversion is r * 1600 meters. -/
theorem identify_points_in_circle_spec
    (center_long center_lat radius : ℚ) (pts : List GeoPoint) (p : GeoPoint) :
    (p ∈ identify_points_in_circle (make_circle center_long center_lat radius) pts
      ↔ p ∈ pts ∧ (p.x - center_long) ^ 2 + (p.y - center_lat) ^ 2
          ≤ miles_to_meters radius ^ 2)
    ∧ miles_to_meters radius = radius * 1600 := by
  constructor
  · rw [identify_points_in_circle, List.mem_filter]
    simp [point_in_circle, make_circle]
  · rfl

/-! ### AnalyzeVius.py: survey records and selection masks

A VIUS survey record is a row of the dataframe; a missing entry (NaN) is
none.  The commodity-percentage and range-percentage columns are accessed
by column name through the pct field.  The selection parameters commodity,
truck_range and region each either take their `all` / `US` default or name
a concrete column or state code. -/

structure ViusRow where
  GREET_CLASS : Option ℚ
  MILES_ANNL : Option ℚ
  WEIGHTAVG : Option ℚ
  WEIGHTEMPTY : Option ℚ
  FUEL : Option ℚ
  PPASSENGERS : Option ℚ
  ACQUIREYEAR : Option ℚ
  ADM_STATE : Option ℚ
  MPG : Option ℚ
  UNLOADED_WEIGHT_CLASS : Option ℚ
  pct : String → Option ℚ

inductive CommoditySel where
  | all
  | col (name : String)

inductive RangeSel where
  | all
  | col (name : String)

inductive RegionSel where
  | us
  | state (code : ℚ)

/-- The cNoPassenger mask: PPASSENGERS missing or equal to zero. -/
def cNoPassenger (r : ViusRow) : Bool :=
  r.PPASSENGERS.isNone || decide (r.PPASSENGERS = some 0)

/-- A threshold cut on a percentage column: the entry is present and
strictly above the threshold. -/
def cThresholdCol (r : ViusRow) (name : String) (threshold : ℚ) : Bool :=
  match r.pct name with
  | none => false
  | some v => decide (threshold < v)

/-- The cRange mask of the plotting functions. -/
def cRangeSel (truck_range : RangeSel) (range_threshold : ℚ) (r : ViusRow) : Bool :=
  match truck_range with
  | RangeSel.all => true
  | RangeSel.col name => cThresholdCol r name range_threshold

/-- The cCommodity mask of the plotting functions. -/
def cCommoditySel (commodity : CommoditySel) (commodity_threshold : ℚ)
    (r : ViusRow) : Bool :=
  match commodity with
  | CommoditySel.all => true
  | CommoditySel.col name => cThresholdCol r name commodity_threshold

/-- The cRegion mask of the plotting functions: ADM_STATE present and
equal to the requested state code. -/
def cRegionSel (region : RegionSel) (r : ViusRow) : Bool :=
  match region with
  | RegionSel.us => true
  | RegionSel.state code => r.ADM_STATE.isSome && decide (r.ADM_STATE = some code)

/-- The cBaseline mask of plot_greet_class_hist (AnalyzeVius lines
225-232): GREET_CLASS, MILES_ANNL, WEIGHTEMPTY and FUEL present, and the
no-passenger condition. -/
def greet_cBaseline (r : ViusRow) : Bool :=
  r.GREET_CLASS.isSome && r.MILES_ANNL.isSome && r.WEIGHTEMPTY.isSome
    && r.FUEL.isSome && cNoPassenger r

/-- The cSelection mask of plot_greet_class_hist (AnalyzeVius line 243),
in the conjunction order of the source. -/
def greet_cSelection (commodity : CommoditySel) (truck_range : RangeSel)
    (region : RegionSel) (range_threshold commodity_threshold : ℚ)
    (r : ViusRow) : Bool :=
  cRangeSel truck_range range_threshold r && cRegionSel region r
    && cCommoditySel commodity commodity_threshold r && greet_cBaseline r

/-- The selection condition of plot_greet_class_hist exactly as the claim
words it. -/
def greetSelectionSpec (commodity : CommoditySel) (truck_range : RangeSel)
    (region : RegionSel) (range_threshold commodity_threshold : ℚ)
    (r : ViusRow) : Prop :=
  r.GREET_CLASS ≠ none ∧ r.MILES_ANNL ≠ none ∧ r.WEIGHTEMPTY ≠ none
  ∧ r.FUEL ≠ none
  ∧ (r.PPASSENGERS = none ∨ r.PPASSENGERS = some 0)
  ∧ (∀ name, commodity = CommoditySel.col name →
      ∃ v, r.pct name = some v ∧ commodity_threshold < v)
  ∧ (∀ name, truck_range = RangeSel.col name →
      ∃ v, r.pct name = some v ∧ range_threshold < v)
  ∧ (∀ code, region = RegionSel.state code → r.ADM_STATE = some code)

lemma cThresholdCol_eq_true (r : ViusRow) (name : String) (t : ℚ) :
    cThresholdCol r name t = true ↔ ∃ v, r.pct name = some v ∧ t < v := by
  rw [cThresholdCol]
  rcases h : r.pct name with _ | v <;> simp [h]

lemma cNoPassenger_eq_true (r : ViusRow) :
    cNoPassenger r = true ↔ r.PPASSENGERS = none ∨ r.PPASSENGERS = some 0 := by
  rw [cNoPassenger]
  rcases h : r.PPASSENGERS with _ | v <;> simp [h]

lemma cRegionSel_eq_true (region : RegionSel) (r : ViusRow) :
    cRegionSel region r = true
      ↔ ∀ code, region = RegionSel.state code → r.ADM_STATE = some code := by
  cases region with
  | us => simp [cRegionSel]
  | state code =>
    rw [cRegionSel]
    simp only [Bool.and_eq_true, decide_eq_true_eq, RegionSel.state.injEq]
    constructor
    · rintro ⟨-, h⟩ c hc
      exact hc ▸ h
    · intro h
      have h0 := h code rfl
      exact ⟨by simp [h0], h0⟩

lemma cCommoditySel_eq_true (commodity : CommoditySel) (t : ℚ) (r : ViusRow) :
    cCommoditySel commodity t r = true
      ↔ ∀ name, commodity = CommoditySel.col name →
          ∃ v, r.pct name = some v ∧ t < v := by
  cases commodity with
  | all => simp [cCommoditySel]
  | col name =>
    rw [cCommoditySel]
    simp [cThresholdCol_eq_true]

lemma cRangeSel_eq_true (truck_range : RangeSel) (t : ℚ) (r : ViusRow) :
    cRangeSel truck_range t r = true
      ↔ ∀ name, truck_range = RangeSel.col name →
          ∃ v, r.pct name = some v ∧ t < v := by
  cases truck_range with
  | all => simp [cRangeSel]
  | col name =>
    rw [cRangeSel]
    simp [cThresholdCol_eq_true]

/-- C5: a record enters the selection of plot_greet_class_hist if and only
if its GREET_CLASS, MILES_ANNL, WEIGHTEMPTY and FUEL fields are present,
its PPASSENGERS field is missing or zero, and, when commodity, truck_range
or region are not at their defaults, the corresponding commodity
percentage is present and strictly above commodity_threshold, the range
percentage is present and strictly above range_threshold, and ADM_STATE is
present and equal to the requested state. -/
theorem plot_greet_class_hist_selection_iff (commodity : CommoditySel)
    (truck_range : RangeSel) (region : RegionSel)
    (range_threshold commodity_threshold : ℚ) (r : ViusRow) :
    greet_cSelection commodity truck_range region range_threshold
        commodity_threshold r = true
      ↔ greetSelectionSpec commodity truck_range region range_threshold
          commodity_threshold r := by
  rw [greet_cSelection, greetSelectionSpec, greet_cBaseline]
  simp only [Bool.and_eq_true, cThresholdCol_eq_true, cNoPassenger_eq_true,
    cRegionSel_eq_true, cCommoditySel_eq_true, cRangeSel_eq_true,
    Option.isSome_iff_ne_none]
  tauto

/-! ### AnalyzeVius.py: weighted histograms with uncertainties

np.histogram with monotonically increasing bin edges counts a value into
bin i when edges i <= x < edges (i+1), except that the final bin also
includes its upper edge; values outside the edges are dropped. -/

/-- Whether a value falls into bin i of the given edges, with the numpy
convention that the final bin is closed on the right. -/
def npInBin (bins : List ℚ) (i : ℕ) (x : ℚ) : Bool :=
  if i + 2 = bins.length then
    decide (bins.getD i 0 ≤ x) && decide (x ≤ bins.getD (i + 1) 0)
  else
    decide (bins.getD i 0 ≤ x) && decide (x < bins.getD (i + 1) 0)

/-- Embedding of np.histogram(values, bins, weights): the bin contents,
one rational per bin. -/
def npHistogram (values weights : List ℚ) (bins : List ℚ) : List ℚ :=
  (List.range (bins.length - 1)).map fun i =>
    (((values.zip weights).filter fun p => npInBin bins i p.1).map
      fun p => p.2).sum

/-- The pair (n, squared uncertainties) computed by the plotting pipeline:
n = np.histogram(values, bins, weights) and the argument of np.sqrt in
n_err = np.sqrt(np.histogram(values, bins, weights ** 2)).  The square
root applied to the second component is left symbolic: the claim about
n_err is stated through its square. -/
def hist_with_unc (values weights : List ℚ) (bins : List ℚ) :
    List ℚ × List ℚ :=
  (npHistogram values weights bins,
   npHistogram values (weights.map fun w => w ^ 2) bins)

lemma getD_map_range (n : ℕ) (f : ℕ → ℚ) (i : ℕ) (h : i < n) :
    ((List.range n).map f).getD i 0 = f i := by
  rw [List.getD_eq_getElem _ _ (by simpa using h)]
  simp [List.getElem_map]

lemma npHistogram_map_bin {α : Type} (rows : List α) (g w : α → ℚ)
    (bins : List ℚ) (i : ℕ) (h : i < bins.length - 1) :
    (npHistogram (rows.map g) (rows.map w) bins).getD i 0
      = ((rows.filter fun r => npInBin bins i (g r)).map w).sum := by
  rw [npHistogram, getD_map_range _ _ _ h, List.zip_map' g w rows,
    List.filter_map, List.map_map]
  rfl

/-- The GREET class histogram bin edges of plot_greet_class_hist
(AnalyzeVius line 264): [0.5, 1.5, 2.5, 3.5, 4.5]. -/
def class_bins : List ℚ := [1 / 2, 3 / 2, 5 / 2, 7 / 2, 9 / 2]

/-- The cBaseline mask of plot_age_hist (AnalyzeVius lines 438-446):
WEIGHTAVG, MILES_ANNL, WEIGHTEMPTY, FUEL and ACQUIREYEAR present, and the
no-passenger condition. -/
def age_cBaseline (r : ViusRow) : Bool :=
  r.WEIGHTAVG.isSome && r.MILES_ANNL.isSome && r.WEIGHTEMPTY.isSome
    && r.FUEL.isSome && r.ACQUIREYEAR.isSome && cNoPassenger r

/-- The cSelection mask of plot_age_hist (AnalyzeVius line 457), in the
conjunction order of the source. -/
def age_cSelection (commodity : CommoditySel) (truck_range : RangeSel)
    (region : RegionSel) (range_threshold commodity_threshold : ℚ)
    (r : ViusRow) : Bool :=
  cCommoditySel commodity commodity_threshold r
    && cRangeSel truck_range range_threshold r && cRegionSel region r
    && age_cBaseline r

/-- The age histogram bin edges of plot_age_hist (AnalyzeVius line 477):
np.arange(18) - 0.5, eighteen edges bounding seventeen bins. -/
def age_bins : List ℚ := (List.range 18).map fun i => (i : ℚ) - 1 / 2

/-- C2: in every ton-mile weighted histogram of the plotting pipeline, the
content of each bin is the sum of the annual ton-mile weights of the
selected records whose binned value falls in the bin, and the squared
statistical uncertainty of the bin (the argument of the square root in
n_err) is the sum of the squared weights of those same records: stated for
the GREET-class histogram of plot_greet_class_hist (binned value
GREET_CLASS over class_bins, bin i) and for the age histogram of
plot_age_hist (binned value ACQUIREYEAR - 1 over age_bins, bin j).  The
annual ton-mile weight assigned to each selected record by
ViusTools.get_annual_ton_miles is abstracted as the function
annual_ton_miles. -/
theorem plot_class_and_age_hist_weighted_bins (df : List ViusRow)
    (commodity : CommoditySel) (truck_range : RangeSel) (region : RegionSel)
    (range_threshold commodity_threshold : ℚ)
    (annual_ton_miles : ViusRow → ℚ) (i j : ℕ) (hi : i < 4) (hj : j < 17) :
    ((hist_with_unc
        ((df.filter (greet_cSelection commodity truck_range region
          range_threshold commodity_threshold)).map fun r => r.GREET_CLASS.getD 0)
        ((df.filter (greet_cSelection commodity truck_range region
          range_threshold commodity_threshold)).map annual_ton_miles)
        class_bins).1.getD i 0
      = (((df.filter (greet_cSelection commodity truck_range region
            range_threshold commodity_threshold)).filter
              fun r => npInBin class_bins i (r.GREET_CLASS.getD 0)).map
          annual_ton_miles).sum)
    ∧ ((hist_with_unc
        ((df.filter (greet_cSelection commodity truck_range region
          range_threshold commodity_threshold)).map fun r => r.GREET_CLASS.getD 0)
        ((df.filter (greet_cSelection commodity truck_range region
          range_threshold commodity_threshold)).map annual_ton_miles)
        class_bins).2.getD i 0
      = (((df.filter (greet_cSelection commodity truck_range region
            range_threshold commodity_threshold)).filter
              fun r => npInBin class_bins i (r.GREET_CLASS.getD 0)).map
          fun r => annual_ton_miles r ^ 2).sum)
    ∧ ((hist_with_unc
        ((df.filter (age_cSelection commodity truck_range region
          range_threshold commodity_threshold)).map
            fun r => r.ACQUIREYEAR.getD 0 - 1)
        ((df.filter (age_cSelection commodity truck_range region
          range_threshold commodity_threshold)).map annual_ton_miles)
        age_bins).1.getD j 0
      = (((df.filter (age_cSelection commodity truck_range region
            range_threshold commodity_threshold)).filter
              fun r => npInBin age_bins j (r.ACQUIREYEAR.getD 0 - 1)).map
          annual_ton_miles).sum)
    ∧ ((hist_with_unc
        ((df.filter (age_cSelection commodity truck_range region
          range_threshold commodity_threshold)).map
            fun r => r.ACQUIREYEAR.getD 0 - 1)
        ((df.filter (age_cSelection commodity truck_range region
          range_threshold commodity_threshold)).map annual_ton_miles)
        age_bins).2.getD j 0
      = (((df.filter (age_cSelection commodity truck_range region
            range_threshold commodity_threshold)).filter
              fun r => npInBin age_bins j (r.ACQUIREYEAR.getD 0 - 1)).map
          fun r => annual_ton_miles r ^ 2).sum) := by
  have hlen1 : i < class_bins.length - 1 := by
    simpa [class_bins] using hi
  have hlen2 : j < age_bins.length - 1 := by
    simpa [age_bins] using hj
  refine ⟨npHistogram_map_bin _ _ _ _ _ hlen1, ?_,
    npHistogram_map_bin _ _ _ _ _ hlen2, ?_⟩
  · rw [hist_with_unc, List.map_map]
    exact npHistogram_map_bin _ _ _ _ _ hlen1
  · rw [hist_with_unc, List.map_map]
    exact npHistogram_map_bin _ _ _ _ _ hlen2

/-- A concrete survey record passing both the plot_greet_class_hist and
the plot_age_hist selections. -/
def witnessRow : ViusRow :=
  ⟨some 1, some 1, some 9000, some 5000, some 1, none, some 1, none, none,
    none, fun _ => none⟩

/-- Witness for C2: the single record witnessRow with weight three, GREET
class bin 0 and age bin 0. -/
theorem plot_class_and_age_hist_weighted_bins_witness :
    (0 : ℕ) < 4
    ∧ (0 : ℕ) < 17
    ∧ (((hist_with_unc
        (([witnessRow].filter
            (greet_cSelection CommoditySel.all RangeSel.all RegionSel.us 0 0)).map
          fun r => r.GREET_CLASS.getD 0)
        (([witnessRow].filter
            (greet_cSelection CommoditySel.all RangeSel.all RegionSel.us 0 0)).map
          fun _ => (3 : ℚ))
        class_bins).1.getD 0 0
      = ((([witnessRow].filter
            (greet_cSelection CommoditySel.all RangeSel.all RegionSel.us 0 0)).filter
              fun r => npInBin class_bins 0 (r.GREET_CLASS.getD 0)).map
          fun _ => (3 : ℚ)).sum)
    ∧ ((hist_with_unc
        (([witnessRow].filter
            (greet_cSelection CommoditySel.all RangeSel.all RegionSel.us 0 0)).map
          fun r => r.GREET_CLASS.getD 0)
        (([witnessRow].filter
            (greet_cSelection CommoditySel.all RangeSel.all RegionSel.us 0 0)).map
          fun _ => (3 : ℚ))
        class_bins).2.getD 0 0
      = ((([witnessRow].filter
            (greet_cSelection CommoditySel.all RangeSel.all RegionSel.us 0 0)).filter
              fun r => npInBin class_bins 0 (r.GREET_CLASS.getD 0)).map
          fun r => ((fun _ => (3 : ℚ)) r) ^ 2).sum)
    ∧ ((hist_with_unc
        (([witnessRow].filter
            (age_cSelection CommoditySel.all RangeSel.all RegionSel.us 0 0)).map
          fun r => r.ACQUIREYEAR.getD 0 - 1)
        (([witnessRow].filter
            (age_cSelection CommoditySel.all RangeSel.all RegionSel.us 0 0)).map
          fun _ => (3 : ℚ))
        age_bins).1.getD 0 0
      = ((([witnessRow].filter
            (age_cSelection CommoditySel.all RangeSel.all RegionSel.us 0 0)).filter
              fun r => npInBin age_bins 0 (r.ACQUIREYEAR.getD 0 - 1)).map
          fun _ => (3 : ℚ)).sum)
    ∧ ((hist_with_unc
        (([witnessRow].filter
            (age_cSelection CommoditySel.all RangeSel.all RegionSel.us 0 0)).map
          fun r => r.ACQUIREYEAR.getD 0 - 1)
        (([witnessRow].filter
            (age_cSelection CommoditySel.all RangeSel.all RegionSel.us 0 0)).map
          fun _ => (3 : ℚ))
        age_bins).2.getD 0 0
      = ((([witnessRow].filter
            (age_cSelection CommoditySel.all RangeSel.all RegionSel.us 0 0)).filter
              fun r => npInBin age_bins 0 (r.ACQUIREYEAR.getD 0 - 1)).map
          fun r => ((fun _ => (3 : ℚ)) r) ^ 2).sum)) :=
  ⟨by norm_num, by norm_num,
    plot_class_and_age_hist_weighted_bins [witnessRow]
      CommoditySel.all RangeSel.all RegionSel.us 0 0 (fun _ => 3) 0 0
      (by norm_num) (by norm_num)⟩

/-! ### AnalyzeVius.py: payload and mpg-times-payload distributions -/

/-- AnalyzeVius line 30: conversion from pounds to tons. -/
def LB_TO_TONS : ℚ := 1 / 2000

/-- Embedding of np.average(a, weights): the weighted sum divided by the
total weight. -/
def npAverage (a weights : List ℚ) : ℚ :=
  (List.zipWith (fun x w => x * w) a weights).sum / weights.sum

/-- Observable outcome of a plotting function for the statistics claims:
either the no-events error path (the function prints an error and returns
before creating any figure), or the plot annotated with the computed mean
and variance (the reported standard deviation is the square root of the
variance). -/
inductive PlotOutcome where
  | noEventsError
  | plotted (mean variance : ℚ)

/-- The per-class cut of plot_payload_hist: either the all default or a
concrete class value compared against the class column. -/
inductive ClassSel where
  | all
  | cls (value : ℚ)

/-- The cGreetClass mask of plot_payload_hist (AnalyzeVius lines 859-861);
the class column is UNLOADED_WEIGHT_CLASS when plot_vw_class is set and
GREET_CLASS otherwise. -/
def cGreetClass (plot_vw_class : Bool) (greet_class : ClassSel)
    (r : ViusRow) : Bool :=
  match greet_class with
  | ClassSel.all => true
  | ClassSel.cls value =>
    let column := if plot_vw_class then r.UNLOADED_WEIGHT_CLASS else r.GREET_CLASS
    column.isSome && decide (column = some value)

/-- The cBaseline mask of plot_payload_hist (AnalyzeVius lines 839-847):
WEIGHTAVG, MILES_ANNL, WEIGHTEMPTY, FUEL and ACQUIREYEAR present, and the
no-passenger condition. -/
def payload_cBaseline (r : ViusRow) : Bool :=
  r.WEIGHTAVG.isSome && r.MILES_ANNL.isSome && r.WEIGHTEMPTY.isSome
    && r.FUEL.isSome && r.ACQUIREYEAR.isSome && cNoPassenger r

/-- The cSelection mask of plot_payload_hist (AnalyzeVius line 863). -/
def payload_cSelection (commodity : CommoditySel) (truck_range : RangeSel)
    (region : RegionSel) (range_threshold commodity_threshold : ℚ)
    (greet_class : ClassSel) (plot_vw_class : Bool) (r : ViusRow) : Bool :=
  cCommoditySel commodity commodity_threshold r
    && cRangeSel truck_range range_threshold r && cRegionSel region r
    && payload_cBaseline r && cGreetClass plot_vw_class greet_class r

/-- Embedding of AnalyzeVius.plot_payload_hist (lines 763-971), restricted
to its observable outcome: the no-events guard at lines 864-866, and the
weighted mean and variance of the payload (WEIGHTAVG - WEIGHTEMPTY in
tons) reported on the plot at lines 924-934.  The annual ton-mile weights
produced by ViusTools.get_annual_ton_miles are abstracted as the function
annual_ton_miles; with weight_by_tm unset the weights are all one. -/
def plot_payload_hist (df : List ViusRow) (commodity : CommoditySel)
    (truck_range : RangeSel) (region : RegionSel)
    (range_threshold commodity_threshold : ℚ) (greet_class : ClassSel)
    (weight_by_tm plot_vw_class : Bool)
    (annual_ton_miles : ViusRow → ℚ) : PlotOutcome :=
  let selected := df.filter (payload_cSelection commodity truck_range region
    range_threshold commodity_threshold greet_class plot_vw_class)
  if selected.length = 0 then PlotOutcome.noEventsError
  else
    let weights_all := if weight_by_tm then selected.map annual_ton_miles
      else List.replicate selected.length 1
    let payload := selected.map fun r =>
      (r.WEIGHTAVG.getD 0 - r.WEIGHTEMPTY.getD 0) * LB_TO_TONS
    let mean_payload := npAverage payload weights_all
    let variance_payload :=
      npAverage (payload.map fun p => (p - mean_payload) ^ 2) weights_all
    PlotOutcome.plotted mean_payload variance_payload

/-- Weighted mean of value/weight pairs, as the claim words it: the sum of
weighted values over the sum of the weights. -/
def specWeightedMean (pairs : List (ℚ × ℚ)) : ℚ :=
  (pairs.map fun p => p.1 * p.2).sum / (pairs.map fun p => p.2).sum

/-- The selected records of plot_payload_hist paired with their payloads
in tons, (WEIGHTAVG - WEIGHTEMPTY) / 2000, and their weights: the annual
ton-miles, or one when weight_by_tm is unset. -/
def payloadPairs (df : List ViusRow) (commodity : CommoditySel)
    (truck_range : RangeSel) (region : RegionSel)
    (range_threshold commodity_threshold : ℚ) (greet_class : ClassSel)
    (weight_by_tm plot_vw_class : Bool)
    (annual_ton_miles : ViusRow → ℚ) : List (ℚ × ℚ) :=
  (df.filter (payload_cSelection commodity truck_range region
    range_threshold commodity_threshold greet_class plot_vw_class)).map fun r =>
      ((r.WEIGHTAVG.getD 0 - r.WEIGHTEMPTY.getD 0) / 2000,
        if weight_by_tm then annual_ton_miles r else 1)

lemma zipWith_mul_map {α : Type} (l : List α) (f g : α → ℚ) :
    List.zipWith (fun x w => x * w) (l.map f) (l.map g)
      = l.map fun r => f r * g r := by
  induction l with
  | nil => rfl
  | cons x xs ih => simp [ih]

lemma npAverage_map_eq_specWeightedMean {α : Type} (l : List α) (f wgt : α → ℚ) :
    npAverage (l.map f) (l.map wgt)
      = specWeightedMean (l.map fun r => (f r, wgt r)) := by
  rw [npAverage, specWeightedMean, zipWith_mul_map, List.map_map, List.map_map]
  rfl

lemma replicate_one_eq_map_one {α : Type} (l : List α) :
    List.replicate l.length (1 : ℚ) = l.map fun _ => 1 := by
  induction l with
  | nil => rfl
  | cons x xs ih => rw [List.length_cons, List.replicate_succ, List.map_cons, ih]

/-- C6: when the selection of plot_payload_hist is nonempty, the reported
mean payload is the weighted average of (WEIGHTAVG - WEIGHTEMPTY) / 2000
over the selected records, weighted by annual ton-miles (unit weights when
weight_by_tm is unset), and the reported variance (squared standard
deviation) is the weighted average, with the same weights, of the squared
deviations of the payloads from that mean. -/
theorem plot_payload_hist_mean_std (df : List ViusRow)
    (commodity : CommoditySel) (truck_range : RangeSel) (region : RegionSel)
    (range_threshold commodity_threshold : ℚ) (greet_class : ClassSel)
    (weight_by_tm plot_vw_class : Bool) (annual_ton_miles : ViusRow → ℚ)
    (hne : df.filter (payload_cSelection commodity truck_range region
      range_threshold commodity_threshold greet_class plot_vw_class) ≠ []) :
    plot_payload_hist df commodity truck_range region range_threshold
        commodity_threshold greet_class weight_by_tm plot_vw_class
        annual_ton_miles
      = PlotOutcome.plotted
          (specWeightedMean (payloadPairs df commodity truck_range region
            range_threshold commodity_threshold greet_class weight_by_tm
            plot_vw_class annual_ton_miles))
          (specWeightedMean ((payloadPairs df commodity truck_range region
            range_threshold commodity_threshold greet_class weight_by_tm
            plot_vw_class annual_ton_miles).map fun p =>
              ((p.1 - specWeightedMean (payloadPairs df commodity truck_range
                region range_threshold commodity_threshold greet_class
                weight_by_tm plot_vw_class annual_ton_miles)) ^ 2, p.2))) := by
  rw [plot_payload_hist]
  set selected := df.filter (payload_cSelection commodity truck_range region
    range_threshold commodity_threshold greet_class plot_vw_class) with hsel
  have hlen : ¬ selected.length = 0 := by
    simpa [List.length_eq_zero] using hne
  rw [if_neg hlen]
  have hwgt :
      (if weight_by_tm then selected.map annual_ton_miles
        else List.replicate selected.length 1)
        = selected.map fun r => if weight_by_tm then annual_ton_miles r else 1 := by
    cases weight_by_tm with
    | false =>
      rw [if_neg (by simp), replicate_one_eq_map_one]
      exact List.map_congr_left fun r _ => by rw [if_neg (by simp)]
    | true =>
      rw [if_pos rfl]
      exact List.map_congr_left fun r _ => by rw [if_pos rfl]
  have hpay :
      (selected.map fun r =>
        (r.WEIGHTAVG.getD 0 - r.WEIGHTEMPTY.getD 0) * LB_TO_TONS)
        = selected.map fun r =>
            (r.WEIGHTAVG.getD 0 - r.WEIGHTEMPTY.getD 0) / 2000 := by
    apply List.map_congr_left
    intro r _
    rw [LB_TO_TONS]
    ring
  have hpairs : payloadPairs df commodity truck_range region range_threshold
      commodity_threshold greet_class weight_by_tm plot_vw_class
      annual_ton_miles
      = selected.map fun r =>
          ((r.WEIGHTAVG.getD 0 - r.WEIGHTEMPTY.getD 0) / 2000,
            if weight_by_tm then annual_ton_miles r else 1) := by
    rw [payloadPairs]
  have hmean :
      npAverage (selected.map fun r =>
          (r.WEIGHTAVG.getD 0 - r.WEIGHTEMPTY.getD 0) * LB_TO_TONS)
        (if weight_by_tm then selected.map annual_ton_miles
          else List.replicate selected.length 1)
      = specWeightedMean (payloadPairs df commodity truck_range region
          range_threshold commodity_threshold greet_class weight_by_tm
          plot_vw_class annual_ton_miles) := by
    rw [hwgt, hpay, npAverage_map_eq_specWeightedMean, hpairs]
  dsimp only
  rw [hmean]
  congr 1
  rw [hpay, List.map_map, hwgt, npAverage_map_eq_specWeightedMean, hpairs,
    List.map_map]
  rfl

set_option maxRecDepth 4000 in
/-- Witness for C6: a single selected record with WEIGHTAVG 9000 lb,
WEIGHTEMPTY 5000 lb and unit ton-mile weight. -/
theorem plot_payload_hist_mean_std_witness :
    ([⟨some 1, some 1, some 9000, some 5000, some 1, none, some 1, none,
        none, none, fun _ => none⟩] : List ViusRow).filter
        (payload_cSelection CommoditySel.all RangeSel.all RegionSel.us 0 0
          ClassSel.all false) ≠ []
    ∧ plot_payload_hist
        [⟨some 1, some 1, some 9000, some 5000, some 1, none, some 1, none,
          none, none, fun _ => none⟩]
        CommoditySel.all RangeSel.all RegionSel.us 0 0 ClassSel.all true false
        (fun _ => 1)
      = PlotOutcome.plotted
          (specWeightedMean (payloadPairs
            [⟨some 1, some 1, some 9000, some 5000, some 1, none, some 1, none,
              none, none, fun _ => none⟩]
            CommoditySel.all RangeSel.all RegionSel.us 0 0 ClassSel.all true
            false (fun _ => 1)))
          (specWeightedMean ((payloadPairs
            [⟨some 1, some 1, some 9000, some 5000, some 1, none, some 1, none,
              none, none, fun _ => none⟩]
            CommoditySel.all RangeSel.all RegionSel.us 0 0 ClassSel.all true
            false (fun _ => 1)).map fun p =>
              ((p.1 - specWeightedMean (payloadPairs
                [⟨some 1, some 1, some 9000, some 5000, some 1, none, some 1,
                  none, none, none, fun _ => none⟩]
                CommoditySel.all RangeSel.all RegionSel.us 0 0 ClassSel.all
                true false (fun _ => 1))) ^ 2, p.2))) :=
  ⟨by
    norm_num [payload_cSelection, payload_cBaseline, cCommoditySel, cRangeSel,
      cRegionSel, cGreetClass, cNoPassenger, List.filter],
   plot_payload_hist_mean_std
      [⟨some 1, some 1, some 9000, some 5000, some 1, none, some 1, none,
        none, none, fun _ => none⟩]
      CommoditySel.all RangeSel.all RegionSel.us 0 0 ClassSel.all true false
      (fun _ => 1)
      (by
        norm_num [payload_cSelection, payload_cBaseline, cCommoditySel,
          cRangeSel, cRegionSel, cGreetClass, cNoPassenger, List.filter])⟩

/-- The cBaseline mask of plot_mpg_times_payload_hist (AnalyzeVius lines
1085-1093): WEIGHTAVG strictly above 8500 lb (false for a missing entry),
the other fields present, and the no-passenger condition. -/
def mpgtp_cBaseline (r : ViusRow) : Bool :=
  (match r.WEIGHTAVG with
   | none => false
   | some v => decide (8500 < v))
    && r.MILES_ANNL.isSome && r.WEIGHTEMPTY.isSome && r.FUEL.isSome
    && r.ACQUIREYEAR.isSome && cNoPassenger r

/-- The cSelection mask of plot_mpg_times_payload_hist (line 1104). -/
def mpgtp_cSelection (commodity : CommoditySel) (truck_range : RangeSel)
    (region : RegionSel) (range_threshold commodity_threshold : ℚ)
    (r : ViusRow) : Bool :=
  cCommoditySel commodity commodity_threshold r
    && cRangeSel truck_range range_threshold r && cRegionSel region r
    && mpgtp_cBaseline r

/-- Embedding of AnalyzeVius.plot_mpg_times_payload_hist (lines
1009-1230), restricted to its observable outcome: the no-events guard at
lines 1105-1107, and the reported weighted mean and variance of
MPG * payload over the selected records whose product is present and
strictly positive (the mask at lines 1129-1132 that drops zeros and the
NaN products of records with missing MPG). -/
def plot_mpg_times_payload_hist (df : List ViusRow)
    (commodity : CommoditySel) (truck_range : RangeSel) (region : RegionSel)
    (range_threshold commodity_threshold : ℚ) (weight_by_tm : Bool)
    (annual_ton_miles : ViusRow → ℚ) : PlotOutcome :=
  let selected := df.filter (mpgtp_cSelection commodity truck_range region
    range_threshold commodity_threshold)
  if selected.length = 0 then PlotOutcome.noEventsError
  else
    let weights_all := if weight_by_tm then selected.map annual_ton_miles
      else List.replicate selected.length 1
    let mpg_times_payload := selected.map fun r =>
      r.MPG.map fun m =>
        m * ((r.WEIGHTAVG.getD 0 - r.WEIGHTEMPTY.getD 0) * LB_TO_TONS)
    let kept := (mpg_times_payload.zip weights_all).filter fun p =>
      match p.1 with
      | none => false
      | some x => decide (0 < x)
    let values := kept.map fun p => p.1.getD 0
    let weights_pos := kept.map fun p => p.2
    let mean := npAverage values weights_pos
    let variance := npAverage (values.map fun x => (x - mean) ^ 2) weights_pos
    PlotOutcome.plotted mean variance

/-- C9: whenever no record passes the selection, plot_payload_hist and
plot_mpg_times_payload_hist take the error path (printing the error
message and returning before any statistic is computed or any figure is
created or saved). -/
theorem empty_selection_returns_error (df : List ViusRow)
    (commodity : CommoditySel) (truck_range : RangeSel) (region : RegionSel)
    (range_threshold commodity_threshold : ℚ) (greet_class : ClassSel)
    (weight_by_tm plot_vw_class : Bool) (annual_ton_miles : ViusRow → ℚ) :
    (df.filter (payload_cSelection commodity truck_range region
        range_threshold commodity_threshold greet_class plot_vw_class) = [] →
      plot_payload_hist df commodity truck_range region range_threshold
          commodity_threshold greet_class weight_by_tm plot_vw_class
          annual_ton_miles
        = PlotOutcome.noEventsError)
    ∧ (df.filter (mpgtp_cSelection commodity truck_range region
        range_threshold commodity_threshold) = [] →
      plot_mpg_times_payload_hist df commodity truck_range region
          range_threshold commodity_threshold weight_by_tm annual_ton_miles
        = PlotOutcome.noEventsError) := by
  constructor
  · intro h
    rw [plot_payload_hist, h]
    rfl
  · intro h
    rw [plot_mpg_times_payload_hist, h]
    rfl

/-- Witness for C9: the empty dataframe selects no record and both
functions return the error outcome. -/
theorem empty_selection_returns_error_witness :
    plot_payload_hist [] CommoditySel.all RangeSel.all RegionSel.us 0 0
        ClassSel.all true false (fun _ => 1)
      = PlotOutcome.noEventsError
    ∧ plot_mpg_times_payload_hist [] CommoditySel.all RangeSel.all
        RegionSel.us 0 0 true (fun _ => 1)
      = PlotOutcome.noEventsError :=
  ⟨(empty_selection_returns_error [] CommoditySel.all RangeSel.all
      RegionSel.us 0 0 ClassSel.all true false (fun _ => 1)).1 rfl,
   (empty_selection_returns_error [] CommoditySel.all RangeSel.all
      RegionSel.us 0 0 ClassSel.all true false (fun _ => 1)).2 rfl⟩

/-! ### AnalyzeVius.py: weighted bin centroids -/

/-- The in-bin mask of get_bin_centroids, applied to a (data, weight)
pair: bins i <= data < bins (i+1).  Unlike np.histogram, the source
applies this half-open mask to every bin, the last included. -/
def centroid_mask (bins : List ℚ) (i : ℕ) (p : ℚ × ℚ) : Bool :=
  decide (bins.getD i 0 ≤ p.1) && decide (p.1 < bins.getD (i + 1) 0)

/-- Embedding of AnalyzeVius.get_bin_centroids (lines 974-1006).  The
source loop appends one centroid per bin: the bin midpoint when the bin
holds no data, and np.average of the in-bin data weighted by the in-bin
weights otherwise.  The common boolean mask applied to the data and
weight arrays becomes a filter over their zip. -/
def get_bin_centroids (data weights : List ℚ) (bins : List ℚ) : List ℚ :=
  (List.range (bins.length - 1)).map fun i =>
    let pairs := (data.zip weights).filter (centroid_mask bins i)
    if pairs.length = 0 then (bins.getD i 0 + bins.getD (i + 1) 0) / 2
    else npAverage (pairs.map fun p => p.1) (pairs.map fun p => p.2)

lemma npAverage_fst_snd (pairs : List (ℚ × ℚ)) :
    npAverage (pairs.map fun p => p.1) (pairs.map fun p => p.2)
      = specWeightedMean pairs := by
  rw [npAverage_map_eq_specWeightedMean]
  congr 1
  simp

lemma sum_snd_pos (pairs : List (ℚ × ℚ)) (hne : pairs ≠ [])
    (hw : ∀ p ∈ pairs, 0 < p.2) : 0 < (pairs.map fun p => p.2).sum := by
  apply List.sum_pos
  · intro a ha
    obtain ⟨p, hp, rfl⟩ := List.mem_map.mp ha
    exact hw p hp
  · simpa using hne

set_option maxHeartbeats 1600000 in
lemma specWeightedMean_bounds (pairs : List (ℚ × ℚ)) (lo hi : ℚ)
    (hne : pairs ≠ []) (hw : ∀ p ∈ pairs, 0 < p.2)
    (hx : ∀ p ∈ pairs, lo ≤ p.1 ∧ p.1 < hi) :
    lo ≤ specWeightedMean pairs ∧ specWeightedMean pairs < hi := by
  have hWpos : 0 < (pairs.map fun p => p.2).sum := sum_snd_pos pairs hne hw
  constructor
  · rw [specWeightedMean, le_div_iff₀ hWpos]
    calc lo * (pairs.map fun p => p.2).sum
        = (pairs.map fun p => lo * p.2).sum :=
          (List.sum_map_mul_left pairs (fun p => p.2) lo).symm
      _ ≤ (pairs.map fun p => p.1 * p.2).sum :=
        List.sum_le_sum fun p hp =>
          mul_le_mul_of_nonneg_right (hx p hp).1 (hw p hp).le
  · rw [specWeightedMean, div_lt_iff₀ hWpos]
    have h1 : ∀ p ∈ pairs, p.1 * p.2 ≤ hi * p.2 := fun p hp =>
      mul_le_mul_of_nonneg_right (hx p hp).2.le (hw p hp).le
    have h2 : ∃ p ∈ pairs, p.1 * p.2 < hi * p.2 := by
      obtain ⟨p, hp⟩ := List.exists_mem_of_ne_nil pairs hne
      exact ⟨p, hp, mul_lt_mul_of_pos_right (hx p hp).2 (hw p hp)⟩
    calc (pairs.map fun p => p.1 * p.2).sum
        < (pairs.map fun p => hi * p.2).sum :=
          List.sum_lt_sum (fun p : ℚ × ℚ => p.1 * p.2)
            (fun p : ℚ × ℚ => hi * p.2) h1 h2
      _ = hi * (pairs.map fun p => p.2).sum :=
          List.sum_map_mul_left pairs (fun p => p.2) hi

/-- C10: for strictly increasing bin edges and data with strictly positive
weights (one weight per data entry), get_bin_centroids returns one
centroid per bin, every centroid lies between its bin edges, and the
centroid is the bin midpoint when the bin is empty and the weighted
average of the in-bin data when it is not. -/
theorem get_bin_centroids_spec (data weights bins : List ℚ)
    (_hlen : data.length = weights.length)
    (hpos : ∀ w ∈ weights, 0 < w)
    (hmono : ∀ i < bins.length - 1, bins.getD i 0 < bins.getD (i + 1) 0) :
    (get_bin_centroids data weights bins).length = bins.length - 1
    ∧ ∀ i < bins.length - 1,
        (bins.getD i 0 ≤ (get_bin_centroids data weights bins).getD i 0
          ∧ (get_bin_centroids data weights bins).getD i 0
              ≤ bins.getD (i + 1) 0)
        ∧ ((data.zip weights).filter (centroid_mask bins i) = [] →
            (get_bin_centroids data weights bins).getD i 0
              = (bins.getD i 0 + bins.getD (i + 1) 0) / 2)
        ∧ ((data.zip weights).filter (centroid_mask bins i) ≠ [] →
            (get_bin_centroids data weights bins).getD i 0
              = specWeightedMean
                  ((data.zip weights).filter (centroid_mask bins i))) := by
  constructor
  · rw [get_bin_centroids]
    simp
  · intro i hi
    have hedge := hmono i hi
    have hcent : (get_bin_centroids data weights bins).getD i 0
        = (if ((data.zip weights).filter (centroid_mask bins i)).length = 0
            then (bins.getD i 0 + bins.getD (i + 1) 0) / 2
            else npAverage
              (((data.zip weights).filter (centroid_mask bins i)).map
                fun p => p.1)
              (((data.zip weights).filter (centroid_mask bins i)).map
                fun p => p.2)) := by
      rw [get_bin_centroids, getD_map_range _ _ _ hi]
    rcases eq_or_ne ((data.zip weights).filter (centroid_mask bins i)) []
      with hemp | hne
    · have hmid : (get_bin_centroids data weights bins).getD i 0
          = (bins.getD i 0 + bins.getD (i + 1) 0) / 2 := by
        rw [hcent, hemp]
        rfl
      refine ⟨⟨by rw [hmid]; linarith, by rw [hmid]; linarith⟩,
        fun _ => hmid, fun hcon => absurd hemp hcon⟩
    · have hlen0 : ¬ ((data.zip weights).filter (centroid_mask bins i)).length = 0 := by
        simpa [List.length_eq_zero] using hne
      have havg : (get_bin_centroids data weights bins).getD i 0
          = specWeightedMean
              ((data.zip weights).filter (centroid_mask bins i)) := by
        rw [hcent, if_neg hlen0, npAverage_fst_snd]
      have hw2 : ∀ p ∈ (data.zip weights).filter (centroid_mask bins i),
          0 < p.2 := by
        intro p hp
        exact hpos p.2 (List.of_mem_zip (List.mem_of_mem_filter hp)).2
      have hx2 : ∀ p ∈ (data.zip weights).filter (centroid_mask bins i),
          bins.getD i 0 ≤ p.1 ∧ p.1 < bins.getD (i + 1) 0 := by
        intro p hp
        have hmask := List.of_mem_filter hp
        rw [centroid_mask, Bool.and_eq_true, decide_eq_true_eq,
          decide_eq_true_eq] at hmask
        exact hmask
      have hbounds := specWeightedMean_bounds _ _ _ hne hw2 hx2
      exact ⟨⟨by rw [havg]; exact hbounds.1, by rw [havg]; exact hbounds.2.le⟩,
        fun hcon => absurd hcon hne, fun _ => havg⟩

/-- Witness for C10: data [1, 2] with unit weights and bins [0, 2, 4],
with the per-bin part of the conclusion instantiated at bin 0. -/
theorem get_bin_centroids_spec_witness :
    (get_bin_centroids [1, 2] [1, 1] [0, 2, 4]).length
        = ([(0 : ℚ), 2, 4] : List ℚ).length - 1
    ∧ (([(0 : ℚ), 2, 4] : List ℚ).getD 0 0
          ≤ (get_bin_centroids [1, 2] [1, 1] [0, 2, 4]).getD 0 0
        ∧ (get_bin_centroids [1, 2] [1, 1] [0, 2, 4]).getD 0 0
          ≤ ([(0 : ℚ), 2, 4] : List ℚ).getD (0 + 1) 0)
    ∧ (get_bin_centroids [1, 2] [1, 1] [0, 2, 4]).getD 0 0
        = specWeightedMean
            ((([(1 : ℚ), 2] : List ℚ).zip ([(1 : ℚ), 1] : List ℚ)).filter
              (centroid_mask [0, 2, 4] 0)) := by
  have hpos : ∀ w ∈ ([(1 : ℚ), 1] : List ℚ), 0 < w := by
    intro w hw
    rcases List.mem_cons.mp hw with h | h
    · rw [h]; norm_num
    · rcases List.mem_cons.mp h with h2 | h2
      · rw [h2]; norm_num
      · cases h2
  have hmono : ∀ i < ([(0 : ℚ), 2, 4] : List ℚ).length - 1,
      ([(0 : ℚ), 2, 4] : List ℚ).getD i 0
        < ([(0 : ℚ), 2, 4] : List ℚ).getD (i + 1) 0 := by
    intro i hi
    have hi2 : i < 2 := by simpa using hi
    interval_cases i <;> norm_num [List.getD]
  have hfil : (([(1 : ℚ), 2] : List ℚ).zip ([(1 : ℚ), 1] : List ℚ)).filter
      (centroid_mask [0, 2, 4] 0) ≠ [] := by
    norm_num [centroid_mask, List.getD, List.filter]
  refine ⟨(get_bin_centroids_spec [1, 2] [1, 1] [0, 2, 4] rfl hpos hmono).1,
    ((get_bin_centroids_spec [1, 2] [1, 1] [0, 2, 4] rfl hpos hmono).2 0
      (by norm_num)).1,
    (((get_bin_centroids_spec [1, 2] [1, 1] [0, 2, 4] rfl hpos hmono).2 0
      (by norm_num)).2.2 hfil)⟩

/-! ### AnalyzeVius.py: unloaded vehicle weight classes

add_unloaded_vehicle_weight_class (lines 1401-1453) histograms the
WEIGHTAVG of the basic-selected events into the four GREET gross-vehicle-
weight bins, turns the cumulative bin fractions into target quantiles, and
takes the interpolated sample quantiles of the full WEIGHTEMPTY column
(scipy.stats.mstats.mquantiles with its default alphap = betap = 0.4) as
the class boundaries; each event is then assigned an unloaded-weight class
by four .loc mask assignments.

External pieces not part of the analysed sources: the mask
make_basic_selections(df) & ~GREET_CLASS.isna() (ViusTools) is abstracted
as the per-row flag basicSel, and the integer keys that
get_key_from_value(InfoObjects.GREET_classes_dict, ...) stores in the
class column are abstracted as the class labels themselves. -/

/-- The fields of a VIUS record used by add_unloaded_vehicle_weight_class;
the WEIGHTAVG and WEIGHTEMPTY entries are taken as present. -/
structure UvwRow where
  WEIGHTAVG : ℚ
  WEIGHTEMPTY : ℚ
  basicSel : Bool

/-- The four GREET gross-vehicle-weight class labels. -/
inductive VWClass where
  | heavyGVW
  | mediumGVW
  | lightGVW
  | lightDuty
deriving DecidableEq

/-- The GREET class bin edges of add_unloaded_vehicle_weight_class
(line 1417): [0, 8500, 19500, 33000, 1e9]. -/
def greet_bins : List ℚ := [0, 8500, 19500, 33000, 1000000000]

/-- numpy clip: the value, clamped to [lo, hi] (the upper bound winning
when lo exceeds hi, as in np.clip). -/
def rclip (x lo hi : ℚ) : ℚ := min hi (max x lo)

/-- Embedding of scipy.stats.mstats.mquantiles for a single probability p
with the default plotting positions alphap = betap = 0.4, on data sorted
in ascending order: the virtual rank n*p + 0.4 + 0.2*p is clipped to
[1, n-1], split into its integer part k and fractional part gamma, and the
quantile interpolates between the order statistics of ranks k and k+1.
The floor of the clipped rank is at least one for nonempty data, so the
astype(int) truncation of the source coincides with the floor. -/
def mquantile (sorted : List ℚ) (p : ℚ) : ℚ :=
  let n : ℚ := sorted.length
  let m := 2 / 5 + p * (1 - 2 / 5 - 2 / 5)
  let aleph := n * p + m
  let k : ℤ := ⌊rclip aleph 1 (n - 1)⌋
  let gamma := rclip (aleph - k) 0 1
  (1 - gamma) * sorted.getD (k - 1).toNat 0 + gamma * sorted.getD k.toNat 0

/-- Insertion into a sorted list, ascending. -/
def insertSorted (x : ℚ) : List ℚ → List ℚ
  | [] => [x]
  | y :: ys => if x ≤ y then x :: y :: ys else y :: insertSorted x ys

/-- Ascending sort (insertion sort), modelling np.sort inside mquantiles. -/
def sortAsc (l : List ℚ) : List ℚ := l.foldr insertSorted []

/-- The four sequential .loc mask assignments of
add_unloaded_vehicle_weight_class (lines 1436-1451), in source order:
Heavy GVW for WEIGHTEMPTY at or above the third boundary, Medium GVW on
[e2, e3), Light GVW on [e1, e2), Light-duty below e1; a later assignment
overwrites an earlier one, and a row matched by no mask keeps its initial
copied WEIGHTAVG value, modelled as none. -/
def uvwAssign (e1 e2 e3 w : ℚ) : Option VWClass :=
  let c1 : Option VWClass := if e3 ≤ w then some VWClass.heavyGVW else none
  let c2 := if e2 ≤ w ∧ w < e3 then some VWClass.mediumGVW else c1
  let c3 := if e1 ≤ w ∧ w < e2 then some VWClass.lightGVW else c2
  if w < e1 then some VWClass.lightDuty else c3

/-- Embedding of AnalyzeVius.add_unloaded_vehicle_weight_class (lines
1401-1453): the result pairs each row with its UNLOADED_WEIGHT_CLASS
entry. -/
def add_unloaded_vehicle_weight_class (df : List UvwRow) :
    List (UvwRow × Option VWClass) :=
  let basicWA := (df.filter UvwRow.basicSel).map UvwRow.WEIGHTAVG
  let event_fractions := (List.range 4).map fun i =>
    ((basicWA.filter (npInBin greet_bins i)).length : ℚ) / (basicWA.length : ℚ)
  let quantiles :=
    [(0 : ℚ)] ++ (List.range 4).map fun i => (event_fractions.take (i + 1)).sum
  let sortedWE := sortAsc (df.map UvwRow.WEIGHTEMPTY)
  let bin_edges_equivalent := quantiles.map (mquantile sortedWE)
  df.map fun r =>
    (r, uvwAssign (bin_edges_equivalent.getD 1 0) (bin_edges_equivalent.getD 2 0)
      (bin_edges_equivalent.getD 3 0) r.WEIGHTEMPTY)

/-- The fraction of basic-selected events whose WEIGHTAVG falls into GREET
bin i. -/
def greetClassFraction (df : List UvwRow) (i : ℕ) : ℚ :=
  ((((df.filter UvwRow.basicSel).map UvwRow.WEIGHTAVG).filter
      (npInBin greet_bins i)).length : ℚ)
    / (((df.filter UvwRow.basicSel).map UvwRow.WEIGHTAVG).length : ℚ)

/-- The cumulative GREET-class fraction below class k. -/
def cumGreetFraction (df : List UvwRow) (k : ℕ) : ℚ :=
  ((List.range k).map (greetClassFraction df)).sum

/-- The k-th unloaded-weight boundary: the interpolated sample quantile of
the WEIGHTEMPTY column at the cumulative GREET-class fraction. -/
def specEdge (df : List UvwRow) (k : ℕ) : ℚ :=
  mquantile (sortAsc (df.map UvwRow.WEIGHTEMPTY)) (cumGreetFraction df k)

/-- Classification of an unloaded weight by the three boundaries. -/
def specClassify (e1 e2 e3 w : ℚ) : VWClass :=
  if w < e1 then VWClass.lightDuty
  else if w < e2 then VWClass.lightGVW
  else if w < e3 then VWClass.mediumGVW
  else VWClass.heavyGVW

lemma uvwAssign_eq_specClassify (e1 e2 e3 w : ℚ) :
    uvwAssign e1 e2 e3 w = some (specClassify e1 e2 e3 w) := by
  by_cases h1 : w < e1
  · simp [uvwAssign, specClassify, h1]
  · by_cases h2 : w < e2
    · have hle : e1 ≤ w := le_of_not_lt h1
      simp [uvwAssign, specClassify, h1, h2, hle]
    · by_cases h3 : w < e3
      · have he2 : e2 ≤ w := le_of_not_lt h2
        have hn2 : ¬ (e1 ≤ w ∧ w < e2) := fun hc => h2 hc.2
        simp [uvwAssign, specClassify, h1, h2, h3, he2, hn2]
      · have he3 : e3 ≤ w := le_of_not_lt h3
        have hn2 : ¬ (e1 ≤ w ∧ w < e2) := fun hc => h2 hc.2
        have hn3 : ¬ (e2 ≤ w ∧ w < e3) := fun hc => h3 hc.2
        simp [uvwAssign, specClassify, h1, h2, h3, he3, hn2, hn3]

/-- C3 (amended): add_unloaded_vehicle_weight_class chooses the
unloaded-weight boundaries as the interpolated sample quantiles (scipy
mquantiles, alphap = betap = 0.4) of the WEIGHTEMPTY column at cumulative
probabilities equal to the fractions of basic-selected events whose
WEIGHTAVG falls into each GREET class, and assigns every event the
unloaded-weight class delimited by those boundaries; the per-class event
fractions agree with the GREET-class fractions only approximately, not
exactly. -/
theorem add_unloaded_vehicle_weight_class_quantile_classification
    (df : List UvwRow) :
    add_unloaded_vehicle_weight_class df
      = df.map fun r =>
          (r, some (specClassify (specEdge df 1) (specEdge df 2)
            (specEdge df 3) r.WEIGHTEMPTY)) := by
  rw [add_unloaded_vehicle_weight_class]
  apply List.map_congr_left
  intro r _
  rw [uvwAssign_eq_specClassify]
  norm_num [specEdge, cumGreetFraction, greetClassFraction, List.range_succ,
    List.getD]

/-- The concrete four-event dataframe on which the exact-fraction claim
fails: WEIGHTAVG puts one event in each GREET class, but the tie in
WEIGHTEMPTY pulls the first interpolated quantile down to 1000, so no
event at all falls below the Light-duty boundary. -/
def uvwCounterexampleRows : List UvwRow :=
  [{ WEIGHTAVG := 5000, WEIGHTEMPTY := 1000, basicSel := true },
   { WEIGHTAVG := 9000, WEIGHTEMPTY := 1000, basicSel := true },
   { WEIGHTAVG := 20000, WEIGHTEMPTY := 3000, basicSel := true },
   { WEIGHTAVG := 40000, WEIGHTEMPTY := 4000, basicSel := true }]

/-- Whether an unloaded-weight class entry is the Light-duty class. -/
def isLightDuty (o : Option VWClass) : Bool :=
  match o with
  | some VWClass.lightDuty => true
  | _ => false

/-- C3 (counterexample to the claim as stated): on uvwCounterexampleRows
the fraction of events assigned the Light-duty unloaded-weight class is 0,
while the fraction of events whose WEIGHTAVG falls into the Light-duty
GREET class is 1/4. -/
theorem add_unloaded_vehicle_weight_class_fraction_counterexample :
    (((add_unloaded_vehicle_weight_class uvwCounterexampleRows).filter
          fun p => isLightDuty p.2).length : ℚ)
        / ((add_unloaded_vehicle_weight_class uvwCounterexampleRows).length : ℚ)
      ≠ ((uvwCounterexampleRows.filter
            fun r => npInBin greet_bins 0 r.WEIGHTAVG).length : ℚ)
          / (uvwCounterexampleRows.length : ℚ) := by
  norm_num [add_unloaded_vehicle_weight_class, uvwCounterexampleRows,
    uvwAssign, isLightDuty, greet_bins, npInBin, mquantile, rclip, sortAsc,
    insertSorted, List.filter, List.range_succ, List.getD, Int.toNat]

end FAF5
